import Mathlib

/-!
Verification of the Student Life Solver (SLS) gamification engine, persistence
utilities, AI service adapter and selected UI components, via a shallow
embedding of the TypeScript source.

Modelling conventions:
* Calendar dates (`YYYY-MM-DD` strings in the source) are abstracted as natural
  day numbers (`Nat`); the day difference computed via `Date.getTime` in the
  source becomes `Nat.dist`, and a model date serializes to a decimal string.
* The per-day activity-count map (a JS object keyed by date strings) is an
  association list `List (Nat × DailyActivityCounts)`.
* JS `undefined`/`null` for optional values is `Option`.
* Thrown JS errors are the `.error` branch of `Except String`.
* Browser local storage is an association list from key strings to JSON
  values; `JSON.stringify`/`JSON.parse` round-tripping through storage is
  modelled by per-record encoders to and decoders from a `Json` value type.
-/

namespace SLS

/-- From `src/types.ts`: the seven gamified action kinds. -/
inductive ActionType where
  | STUDY_PLAN_GENERATED
  | NOTES_SUMMARIZED
  | HOMEWORK_CHECKED
  | MOOD_UPDATED
  | DECISION_MADE
  | GRADE_PREDICTED
  | PRESSURE_CALCULATED
deriving DecidableEq, Repr

/-- From `src/types.ts`: the five unlockable badge identities. -/
inductive AchievementType where
  | FIRE_MASTER
  | NOTES_HERO
  | HOMEWORK_LEGEND
  | FOCUS_BEAST
  | CONSISTENCY_KING_QUEEN
deriving DecidableEq, Repr

/-- From `src/types.ts`: the eight tool/tab identities. -/
inductive ToolName where
  | DAILY_ACHIEVEMENTS
  | STUDY_ROUTINE
  | NOTES_CLEANER
  | HOMEWORK_CHECKER
  | MOOD_STRESS
  | DECISION_HELPER
  | PREDICT_MY_GRADE
  | DEADLINE_PRESSURE
deriving DecidableEq, Repr

/-- The string value of each `ToolName` enum member in the source. -/
def ToolName.value : ToolName → String
  | .DAILY_ACHIEVEMENTS => "Daily Achievements"
  | .STUDY_ROUTINE => "Study Routine Auto-Fixer"
  | .NOTES_CLEANER => "Notes Cleaner & Smart Summarizer"
  | .HOMEWORK_CHECKER => "Homework Checker"
  | .MOOD_STRESS => "Mood & Stress Manager"
  | .DECISION_HELPER => "Instant Decision Helper"
  | .PREDICT_MY_GRADE => "Predict My Grade"
  | .DEADLINE_PRESSURE => "Deadline Pressure Meter"

/-- Recover a `ToolName` from its string enum value. -/
def toolNameFromString (s : String) : Option ToolName :=
  if s = "Daily Achievements" then some .DAILY_ACHIEVEMENTS
  else if s = "Study Routine Auto-Fixer" then some .STUDY_ROUTINE
  else if s = "Notes Cleaner & Smart Summarizer" then some .NOTES_CLEANER
  else if s = "Homework Checker" then some .HOMEWORK_CHECKER
  else if s = "Mood & Stress Manager" then some .MOOD_STRESS
  else if s = "Instant Decision Helper" then some .DECISION_HELPER
  else if s = "Predict My Grade" then some .PREDICT_MY_GRADE
  else if s = "Deadline Pressure Meter" then some .DEADLINE_PRESSURE
  else none

/-- The string value of each `AchievementType` enum member in the source. -/
def AchievementType.value : AchievementType → String
  | .FIRE_MASTER => "Fire Master"
  | .NOTES_HERO => "Notes Hero"
  | .HOMEWORK_LEGEND => "Homework Legend"
  | .FOCUS_BEAST => "Focus Beast"
  | .CONSISTENCY_KING_QUEEN => "Consistency King/Queen"

/-- Recover an `AchievementType` from its string enum value. -/
def achievementFromString (s : String) : Option AchievementType :=
  if s = "Fire Master" then some .FIRE_MASTER
  else if s = "Notes Hero" then some .NOTES_HERO
  else if s = "Homework Legend" then some .HOMEWORK_LEGEND
  else if s = "Focus Beast" then some .FOCUS_BEAST
  else if s = "Consistency King/Queen" then some .CONSISTENCY_KING_QUEEN
  else none

/-- From `src/types.ts`: `DifficultyLevel = 'easy' | 'medium' | 'hard'`. -/
inductive DifficultyLevel where
  | easy
  | medium
  | hard
deriving DecidableEq, Repr

/-- The string value of each difficulty level. -/
def DifficultyLevel.value : DifficultyLevel → String
  | .easy => "easy"
  | .medium => "medium"
  | .hard => "hard"

/-- Recover a `DifficultyLevel` from its string value. -/
def difficultyFromString (s : String) : Option DifficultyLevel :=
  if s = "easy" then some .easy
  else if s = "medium" then some .medium
  else if s = "hard" then some .hard
  else none

/-- From `src/types.ts`: `NoteFormat = 'exam-style' | 'bullet-points' |
'revision-sheet'`. -/
inductive NoteFormat where
  | examStyle
  | bulletPoints
  | revisionSheet
deriving DecidableEq, Repr

/-- The string value of each note format. -/
def NoteFormat.value : NoteFormat → String
  | .examStyle => "exam-style"
  | .bulletPoints => "bullet-points"
  | .revisionSheet => "revision-sheet"

/-- Recover a `NoteFormat` from its string value. -/
def noteFormatFromString (s : String) : Option NoteFormat :=
  if s = "exam-style" then some .examStyle
  else if s = "bullet-points" then some .bulletPoints
  else if s = "revision-sheet" then some .revisionSheet
  else none

/-- From `src/types.ts`: `XpState`. -/
structure XpState where
  xp : Nat
  level : Nat
deriving DecidableEq, Repr

/-- From `src/types.ts`: `DailyActivityCounts`. -/
structure DailyActivityCounts where
  studyPlansGenerated : Nat
  notesSummarized : Nat
  homeworkChecked : Nat
  moodUpdates : Nat
  decisionsMade : Nat
  gradesPredicted : Nat
  focusBeastEligibleToday : Bool
deriving DecidableEq, Repr

/-- From `src/types.ts`: `DailyAchievementState`; date strings abstracted as
`Nat`. -/
structure DailyAchievementState where
  xpState : XpState
  unlockedBadges : List AchievementType
  currentStreak : Nat
  lastActivityDate : Option Nat
  dailyActionCounts : List (Nat × DailyActivityCounts)
deriving DecidableEq, Repr

/-- From `src/types.ts`: `SavedItem`. -/
structure SavedItem where
  id : String
  toolName : ToolName
  title : String
  content : String
  timestamp : String
deriving DecidableEq, Repr

/-- From `src/types.ts`: `StudyRoutineInputs` (the last five fields are
optional in the interface). -/
structure StudyRoutineInputs where
  subjects : String
  hoursPerDay : Nat
  difficulty : DifficultyLevel
  isGroupMode : Option Bool
  groupMembers : Option String
  groupSubjects : Option String
  groupHoursPerDay : Option Nat
  groupDifficulty : Option DifficultyLevel
deriving DecidableEq, Repr

/-- From `src/types.ts`: `NotesSummarizerInputs`. -/
structure NotesSummarizerInputs where
  notesInput : String
  format : NoteFormat
deriving DecidableEq, Repr

/-- From `src/types.ts`: `HomeworkCheckerInputs`. -/
structure HomeworkCheckerInputs where
  question : String
  userAnswer : String
  rewriteRequested : Bool
deriving DecidableEq, Repr

/-- From `src/types.ts`: `DeadlinePressureInputs`. -/
structure DeadlinePressureInputs where
  tasksInput : String
deriving DecidableEq, Repr

/-- The all-zero `DailyActivityCounts` literal used throughout the app shell. -/
def emptyCounts : DailyActivityCounts :=
  { studyPlansGenerated := 0, notesSummarized := 0, homeworkChecked := 0,
    moodUpdates := 0, decisionsMade := 0, gradesPredicted := 0,
    focusBeastEligibleToday := false }

/-- From `src/types.ts` (app shell): `const XP_LEVELS = [0, 100, 250, 500, 1000,
2000, 3500, 5000, 7500, 10000]`. -/
def XP_LEVELS : List Nat := [0, 100, 250, 500, 1000, 2000, 3500, 5000, 7500, 10000]

/-- From `src/types.ts` (app shell): `XP_AWARDS`. -/
def XP_AWARDS : ActionType → Nat
  | .STUDY_PLAN_GENERATED => 15
  | .NOTES_SUMMARIZED => 20
  | .HOMEWORK_CHECKED => 30
  | .MOOD_UPDATED => 10
  | .DECISION_MADE => 5
  | .GRADE_PREDICTED => 5
  | .PRESSURE_CALCULATED => 10

/-- The loop body of `calculateLevelFromXp`: walk the threshold list keeping the
last index whose threshold is `≤ xp`, stopping at the first exceeding one
(`break` in the source). `i` is the index of the head of the remaining list,
`cur` the current level accumulator. -/
def calcLevelLoop (xp : Nat) : List Nat → Nat → Nat → Nat
  | [], _, cur => cur
  | t :: ts, i, cur => if xp ≥ t then calcLevelLoop xp ts (i + 1) i else cur

/-- From `src/types.ts` (app shell), `calculateLevelFromXp`: for-loop over
`XP_LEVELS` setting `currentLevel = i` while `xp ≥ XP_LEVELS[i]`, breaking at
the first threshold above `xp`. -/
def calculateLevelFromXp (currentXp : Nat) : Nat :=
  calcLevelLoop currentXp XP_LEVELS 0 0

/-- Result of the pure badge-check helper in the app shell
(`getUpdatedStateAfterBadgeCheck`): the next state, the newly unlocked badge
(if any, abstracted to its identity), and whether an unlock happened. -/
structure BadgeCheckResult where
  updatedState : DailyAchievementState
  unlockedBadge : Option AchievementType
  didUnlock : Bool
deriving Repr

/-- From `src/types.ts` (app shell), `getUpdatedStateAfterBadgeCheck`: if the
badge is not yet in `unlockedBadges`, append it and report the unlock;
otherwise return the state unchanged with `didUnlock = false`. The returned
`Achievement` record (with its wall-clock `unlockedAt` stamp) is abstracted to
the badge identity. -/
def getUpdatedStateAfterBadgeCheck (s : DailyAchievementState)
    (badgeType : AchievementType) : BadgeCheckResult :=
  if ¬ (badgeType ∈ s.unlockedBadges) then
    { updatedState := { s with unlockedBadges := s.unlockedBadges ++ [badgeType] },
      unlockedBadge := some badgeType,
      didUnlock := true }
  else
    { updatedState := s, unlockedBadge := none, didUnlock := false }

/-- From `src/types.ts` (app shell), the day-boundary `useEffect` keyed on
`lastActivityDate`: initializes today's count record if missing, recomputes the
streak from the day gap (`Math.round(Math.abs(...))` on day-granular dates is
`Nat.dist`), stamps `lastActivityDate` (kept unchanged on a same-day run), and
runs the CONSISTENCY_KING_QUEEN badge check when the new streak reaches 7.
Returns the new state together with the newly unlocked badge, if any. -/
def streakEffect (today : Nat) (prev : DailyAchievementState) :
    DailyAchievementState × Option AchievementType :=
  let newDailyCounts :=
    if (prev.dailyActionCounts.lookup today).isSome then prev.dailyActionCounts
    else prev.dailyActionCounts ++ [(today, emptyCounts)]
  let streakAndDate : Nat × Option Nat :=
    match prev.lastActivityDate with
    | some lastActivity =>
      let diffDays := Nat.dist today lastActivity
      if diffDays = 1 then (prev.currentStreak + 1, some today)
      else if diffDays > 1 then (1, some today)
      else (prev.currentStreak, prev.lastActivityDate)
    | none => (1, some today)
  let working : DailyAchievementState :=
    { prev with
      currentStreak := streakAndDate.1,
      lastActivityDate := streakAndDate.2,
      dailyActionCounts := newDailyCounts }
  if streakAndDate.1 ≥ 7 then
    let r := getUpdatedStateAfterBadgeCheck working .CONSISTENCY_KING_QUEEN
    (r.updatedState, if r.didUnlock then r.unlockedBadge else none)
  else (working, none)

/-- Store a day's counts record under its date key, keeping all other keys:
the JS object spread-update `{ ...counts, [todayStr]: dayCounts }`. -/
def setCounts (m : List (Nat × DailyActivityCounts)) (d : Nat)
    (c : DailyActivityCounts) : List (Nat × DailyActivityCounts) :=
  (d, c) :: m.filter (fun p => decide (p.1 ≠ d))

/-- Intermediate result of `handleAction`'s per-action `switch`: the XP to
award, the mutated copy of today's counts, the working state after any badge
check, and the newly unlocked badge with its sound flag. -/
structure ActionStep where
  xpEarned : Nat
  dayCounts : DailyActivityCounts
  working : DailyAchievementState
  unlockedNewBadge : Option AchievementType
  playedBadgeSound : Bool

/-- The `switch (action)` body of `handleAction` in `src/types.ts`:
`counts0` is the fresh copy of today's counts the source takes before the
switch. -/
def handleActionStep (counts0 : DailyActivityCounts) (prev : DailyAchievementState)
    (action : ActionType) (hoursPerDay : Option Nat) : ActionStep :=
  match action with
  | .STUDY_PLAN_GENERATED =>
    let xpAndCounts :=
      if counts0.studyPlansGenerated = 0 then
        (XP_AWARDS .STUDY_PLAN_GENERATED, { counts0 with studyPlansGenerated := 1 })
      else (0, counts0)
    if hoursPerDay.getD 0 ≥ 2 then
      let r := getUpdatedStateAfterBadgeCheck prev .FOCUS_BEAST
      ⟨xpAndCounts.1, xpAndCounts.2, r.updatedState, r.unlockedBadge, r.didUnlock⟩
    else ⟨xpAndCounts.1, xpAndCounts.2, prev, none, false⟩
  | .NOTES_SUMMARIZED =>
    let c := { counts0 with notesSummarized := counts0.notesSummarized + 1 }
    if c.notesSummarized ≥ 5 then
      let r := getUpdatedStateAfterBadgeCheck prev .NOTES_HERO
      ⟨XP_AWARDS .NOTES_SUMMARIZED, c, r.updatedState, r.unlockedBadge, r.didUnlock⟩
    else ⟨XP_AWARDS .NOTES_SUMMARIZED, c, prev, none, false⟩
  | .HOMEWORK_CHECKED =>
    let c := { counts0 with homeworkChecked := counts0.homeworkChecked + 1 }
    if c.homeworkChecked ≥ 5 then
      let r := getUpdatedStateAfterBadgeCheck prev .HOMEWORK_LEGEND
      ⟨XP_AWARDS .HOMEWORK_CHECKED, c, r.updatedState, r.unlockedBadge, r.didUnlock⟩
    else ⟨XP_AWARDS .HOMEWORK_CHECKED, c, prev, none, false⟩
  | .MOOD_UPDATED =>
    ⟨XP_AWARDS .MOOD_UPDATED,
      { counts0 with moodUpdates := counts0.moodUpdates + 1 }, prev, none, false⟩
  | .DECISION_MADE =>
    ⟨XP_AWARDS .DECISION_MADE,
      { counts0 with decisionsMade := counts0.decisionsMade + 1 }, prev, none, false⟩
  | .GRADE_PREDICTED =>
    ⟨XP_AWARDS .GRADE_PREDICTED,
      { counts0 with gradesPredicted := counts0.gradesPredicted + 1 }, prev, none, false⟩
  | .PRESSURE_CALCULATED =>
    ⟨XP_AWARDS .PRESSURE_CALCULATED, counts0, prev, none, false⟩

/-- Result of a `handleAction` call: the next state plus the data driving the
side effects (XP-gain sound iff `xpEarned > 0`, celebration overlay iff
`unlockedNewBadge` is set, badge sound iff `playedBadgeSound`). -/
structure ActionResult where
  state : DailyAchievementState
  xpEarned : Nat
  unlockedNewBadge : Option AchievementType
  playedBadgeSound : Bool

/-- From `src/types.ts` (app shell), `handleAction`: reads today's counts
(zero-initialized if absent), runs the per-action switch (XP, count and badge
updates), recomputes XP/level, stamps `lastActivityDate` with today, and
stores today's mutated counts back into the map. `data?.hoursPerDay` is the
optional payload of STUDY_PLAN_GENERATED. -/
def handleAction (today : Nat) (action : ActionType) (hoursPerDay : Option Nat)
    (prev : DailyAchievementState) : ActionResult :=
  let counts0 := (prev.dailyActionCounts.lookup today).getD emptyCounts
  let step := handleActionStep counts0 prev action hoursPerDay
  let newXp := step.working.xpState.xp + step.xpEarned
  let newLevel := calculateLevelFromXp newXp
  { state :=
      { step.working with
        xpState := { xp := newXp, level := newLevel },
        lastActivityDate := some today,
        dailyActionCounts := setCounts step.working.dailyActionCounts today step.dayCounts },
    xpEarned := step.xpEarned,
    unlockedNewBadge := step.unlockedNewBadge,
    playedBadgeSound := step.playedBadgeSound }

/-! ### Persistence model (`src/utils/localStorageService.ts`) -/

/-- A JSON value, the shape that `JSON.stringify` serializes and `JSON.parse`
recovers (all numbers occurring in persisted SLS records are naturals). -/
inductive Json where
  | str (s : String)
  | num (n : Nat)
  | bool (b : Bool)
  | null
  | arr (xs : List Json)
  | obj (fields : List (String × Json))

/-- Serialize a model date (day number) to its decimal string key. -/
def dateKey (d : Nat) : String :=
  String.mk ((Nat.digits 10 d).reverse.map (fun k => Char.ofNat (48 + k)))

/-- Read a model date back from a decimal string key. -/
def parseDateKey (s : String) : Nat :=
  Nat.ofDigits 10 ((s.data.map (fun c => c.toNat - 48)).reverse)

/-- Extract a JSON string. -/
def Json.asString : Json → Option String
  | .str s => some s
  | _ => none

/-- Extract a JSON number. -/
def Json.asNat : Json → Option Nat
  | .num n => some n
  | _ => none

/-- Extract a JSON boolean. -/
def Json.asBool : Json → Option Bool
  | .bool b => some b
  | _ => none

/-- Decode each element of a JSON array, failing if any element fails. -/
def decodeList (g : Json → Option α) : List Json → Option (List α)
  | [] => some []
  | j :: js => do
      let a ← g j
      let as ← decodeList g js
      pure (a :: as)

/-- Serialize an `XpState`. -/
def encodeXpState (x : XpState) : Json :=
  .obj [("xp", .num x.xp), ("level", .num x.level)]

/-- Parse an `XpState`. -/
def decodeXpState : Json → Option XpState
  | .obj [("xp", .num a), ("level", .num b)] => some ⟨a, b⟩
  | _ => none

/-- Serialize a `DailyActivityCounts` record. -/
def encodeCounts (c : DailyActivityCounts) : Json :=
  .obj [("studyPlansGenerated", .num c.studyPlansGenerated),
        ("notesSummarized", .num c.notesSummarized),
        ("homeworkChecked", .num c.homeworkChecked),
        ("moodUpdates", .num c.moodUpdates),
        ("decisionsMade", .num c.decisionsMade),
        ("gradesPredicted", .num c.gradesPredicted),
        ("focusBeastEligibleToday", .bool c.focusBeastEligibleToday)]

/-- Parse a `DailyActivityCounts` record. -/
def decodeCounts : Json → Option DailyActivityCounts
  | .obj [("studyPlansGenerated", .num a), ("notesSummarized", .num b),
          ("homeworkChecked", .num c), ("moodUpdates", .num d),
          ("decisionsMade", .num e), ("gradesPredicted", .num f),
          ("focusBeastEligibleToday", .bool g)] => some ⟨a, b, c, d, e, f, g⟩
  | _ => none

/-- Parse the date-keyed entries of the counts map. -/
def decodeCountsEntries (g : Json → Option DailyActivityCounts) :
    List (String × Json) → Option (List (Nat × DailyActivityCounts))
  | [] => some []
  | (k, j) :: rest => do
      let c ← g j
      let cs ← decodeCountsEntries g rest
      pure ((parseDateKey k, c) :: cs)

/-- Serialize the per-day counts map as a date-keyed JSON object. -/
def encodeCountsMap (m : List (Nat × DailyActivityCounts)) : Json :=
  .obj (m.map (fun p => (dateKey p.1, encodeCounts p.2)))

/-- Parse the per-day counts map; a JSON `null`/missing value is coerced to the
empty map, mirroring the `if (!state.dailyActionCounts)` guard in
`loadDailyAchievementState`. -/
def decodeCountsMap : Json → Option (List (Nat × DailyActivityCounts))
  | .obj fields => decodeCountsEntries decodeCounts fields
  | .null => some []
  | _ => none

/-- Serialize `lastActivityDate` (a date string or `null` in the source). -/
def encodeLastDate : Option Nat → Json
  | none => .null
  | some d => .str (dateKey d)

/-- Parse `lastActivityDate`. -/
def decodeLastDate : Json → Option (Option Nat)
  | .null => some none
  | .str s => some (some (parseDateKey s))
  | _ => none

/-- Serialize a full `DailyAchievementState`. -/
def encodeDailyAchievementState (s : DailyAchievementState) : Json :=
  .obj [("xpState", encodeXpState s.xpState),
        ("unlockedBadges", .arr (s.unlockedBadges.map (fun b => .str b.value))),
        ("currentStreak", .num s.currentStreak),
        ("lastActivityDate", encodeLastDate s.lastActivityDate),
        ("dailyActionCounts", encodeCountsMap s.dailyActionCounts)]

/-- Parse a full `DailyAchievementState`. -/
def decodeDailyAchievementState : Json → Option DailyAchievementState
  | .obj [("xpState", jx), ("unlockedBadges", .arr bs), ("currentStreak", .num cs),
          ("lastActivityDate", jd), ("dailyActionCounts", jm)] => do
      let x ← decodeXpState jx
      let badges ← decodeList (fun b => b.asString.bind achievementFromString) bs
      let lastDate ← decodeLastDate jd
      let m ← decodeCountsMap jm
      pure ⟨x, badges, cs, lastDate, m⟩
  | _ => none

/-- Serialize a `SavedItem`. -/
def encodeSavedItem (v : SavedItem) : Json :=
  .obj [("id", .str v.id), ("toolName", .str v.toolName.value),
        ("title", .str v.title), ("content", .str v.content),
        ("timestamp", .str v.timestamp)]

/-- Parse a `SavedItem`. -/
def decodeSavedItem : Json → Option SavedItem
  | .obj [("id", .str id), ("toolName", .str tn), ("title", .str title),
          ("content", .str content), ("timestamp", .str ts)] =>
      (toolNameFromString tn).map (fun t => ⟨id, t, title, content, ts⟩)
  | _ => none

/-- Serialize the saved-items array. -/
def encodeSavedItems (items : List SavedItem) : Json :=
  .arr (items.map encodeSavedItem)

/-- Parse the saved-items array. -/
def decodeSavedItems : Json → Option (List SavedItem)
  | .arr xs => decodeList decodeSavedItem xs
  | _ => none

/-- An optional JSON object field: `JSON.stringify` omits `undefined` values,
so a `none` contributes no field at all. -/
def optField (k : String) : Option Json → List (String × Json)
  | none => []
  | some j => [(k, j)]

/-- Parse an optional object field: absent means `none`. -/
def decodeOptField (o : Option Json) (g : Json → Option α) : Option (Option α) :=
  match o with
  | none => some none
  | some j => (g j).map some

/-- Serialize a `StudyRoutineInputs` record; optional fields are omitted when
absent, as `JSON.stringify` does for `undefined`. -/
def encodeStudyRoutineInputs (v : StudyRoutineInputs) : Json :=
  .obj ([("subjects", .str v.subjects), ("hoursPerDay", .num v.hoursPerDay),
         ("difficulty", .str v.difficulty.value)]
    ++ optField "isGroupMode" (v.isGroupMode.map Json.bool)
    ++ optField "groupMembers" (v.groupMembers.map Json.str)
    ++ optField "groupSubjects" (v.groupSubjects.map Json.str)
    ++ optField "groupHoursPerDay" (v.groupHoursPerDay.map Json.num)
    ++ optField "groupDifficulty" (v.groupDifficulty.map (fun x => Json.str x.value)))

/-- Parse a `StudyRoutineInputs` record. -/
def decodeStudyRoutineInputs : Json → Option StudyRoutineInputs
  | .obj fields => do
      let subjects ← (fields.lookup "subjects").bind Json.asString
      let hours ← (fields.lookup "hoursPerDay").bind Json.asNat
      let diff ← ((fields.lookup "difficulty").bind Json.asString).bind difficultyFromString
      let isGroupMode ← decodeOptField (fields.lookup "isGroupMode") Json.asBool
      let groupMembers ← decodeOptField (fields.lookup "groupMembers") Json.asString
      let groupSubjects ← decodeOptField (fields.lookup "groupSubjects") Json.asString
      let groupHoursPerDay ← decodeOptField (fields.lookup "groupHoursPerDay") Json.asNat
      let groupDifficulty ← decodeOptField (fields.lookup "groupDifficulty")
        (fun j => j.asString.bind difficultyFromString)
      pure ⟨subjects, hours, diff, isGroupMode, groupMembers, groupSubjects,
            groupHoursPerDay, groupDifficulty⟩
  | _ => none

/-- Serialize a `NotesSummarizerInputs` record. -/
def encodeNotesSummarizerInputs (v : NotesSummarizerInputs) : Json :=
  .obj [("notesInput", .str v.notesInput), ("format", .str v.format.value)]

/-- Parse a `NotesSummarizerInputs` record. -/
def decodeNotesSummarizerInputs : Json → Option NotesSummarizerInputs
  | .obj [("notesInput", .str n), ("format", .str f)] =>
      (noteFormatFromString f).map (fun fm => ⟨n, fm⟩)
  | _ => none

/-- Serialize a `HomeworkCheckerInputs` record. -/
def encodeHomeworkCheckerInputs (v : HomeworkCheckerInputs) : Json :=
  .obj [("question", .str v.question), ("userAnswer", .str v.userAnswer),
        ("rewriteRequested", .bool v.rewriteRequested)]

/-- Parse a `HomeworkCheckerInputs` record. -/
def decodeHomeworkCheckerInputs : Json → Option HomeworkCheckerInputs
  | .obj [("question", .str q), ("userAnswer", .str a), ("rewriteRequested", .bool r)] =>
      some ⟨q, a, r⟩
  | _ => none

/-- Serialize a `DeadlinePressureInputs` record. -/
def encodeDeadlinePressureInputs (v : DeadlinePressureInputs) : Json :=
  .obj [("tasksInput", .str v.tasksInput)]

/-- Parse a `DeadlinePressureInputs` record. -/
def decodeDeadlinePressureInputs : Json → Option DeadlinePressureInputs
  | .obj [("tasksInput", .str t)] => some ⟨t⟩
  | _ => none

/-- Browser local storage: an association list from fixed string keys to the
JSON value stored under each. -/
def Store : Type := List (String × Json)

/-- `localStorage.getItem` (at the JSON-value level). -/
def Store.getItem (st : Store) (k : String) : Option Json :=
  List.lookup k st

/-- `localStorage.setItem` (at the JSON-value level). -/
def Store.setItem (st : Store) (k : String) (v : Json) : Store :=
  (k, v) :: List.filter (fun p => decide (p.1 ≠ k)) st

/-- A storage with nothing stored under any key. -/
def emptyStore : Store := []

/-- Storage key for the saved-items array. -/
def SAVED_ITEMS_KEY : String := "slsSavedItems"

/-- Storage key for the study-routine draft inputs. -/
def STUDY_ROUTINE_INPUTS_KEY : String := "slsStudyRoutineInputs"

/-- Storage key for the notes-summarizer draft inputs. -/
def NOTES_SUMMARIZER_INPUTS_KEY : String := "slsNotesSummarizerInputs"

/-- Storage key for the homework-checker draft inputs. -/
def HOMEWORK_CHECKER_INPUTS_KEY : String := "slsHomeworkCheckerInputs"

/-- Storage key for the deadline-pressure draft inputs. -/
def DEADLINE_PRESSURE_INPUTS_KEY : String := "slsDeadlinePressureInputs"

/-- Storage key for the full gamification state. -/
def DAILY_ACHIEVEMENT_STATE_KEY : String := "slsDailyAchievementState"

/-- Storage key for the sound preference. -/
def SOUND_ENABLED_KEY : String := "slsSoundEnabled"

/-- `loadSavedItems`: missing key (or an unparsable value, the catch branch)
yields the empty array. -/
def loadSavedItems (st : Store) : List SavedItem :=
  match st.getItem SAVED_ITEMS_KEY with
  | none => []
  | some j => (decodeSavedItems j).getD []

/-- `saveItems`. -/
def saveItems (st : Store) (items : List SavedItem) : Store :=
  st.setItem SAVED_ITEMS_KEY (encodeSavedItems items)

/-- The zeroed default `DailyAchievementState` returned by
`loadDailyAchievementState` when nothing is stored. -/
def defaultDailyAchievementState : DailyAchievementState :=
  { xpState := { xp := 0, level := 0 }, unlockedBadges := [], currentStreak := 0,
    lastActivityDate := none, dailyActionCounts := [] }

/-- `loadDailyAchievementState`. -/
def loadDailyAchievementState (st : Store) : DailyAchievementState :=
  match st.getItem DAILY_ACHIEVEMENT_STATE_KEY with
  | none => defaultDailyAchievementState
  | some j => (decodeDailyAchievementState j).getD defaultDailyAchievementState

/-- `saveDailyAchievementState`. -/
def saveDailyAchievementState (st : Store) (s : DailyAchievementState) : Store :=
  st.setItem DAILY_ACHIEVEMENT_STATE_KEY (encodeDailyAchievementState s)

/-- `loadSoundEnabled`: defaults to `true`. -/
def loadSoundEnabled (st : Store) : Bool :=
  match st.getItem SOUND_ENABLED_KEY with
  | none => true
  | some j => (j.asBool).getD true

/-- `saveSoundEnabled`. -/
def saveSoundEnabled (st : Store) (enabled : Bool) : Store :=
  st.setItem SOUND_ENABLED_KEY (.bool enabled)

/-- `loadStudyRoutineInputs`: default `{subjects: '', hoursPerDay: 3,
difficulty: 'medium'}`. -/
def loadStudyRoutineInputs (st : Store) : StudyRoutineInputs :=
  match st.getItem STUDY_ROUTINE_INPUTS_KEY with
  | none => ⟨"", 3, .medium, none, none, none, none, none⟩
  | some j => (decodeStudyRoutineInputs j).getD ⟨"", 3, .medium, none, none, none, none, none⟩

/-- `saveStudyRoutineInputs`. -/
def saveStudyRoutineInputs (st : Store) (v : StudyRoutineInputs) : Store :=
  st.setItem STUDY_ROUTINE_INPUTS_KEY (encodeStudyRoutineInputs v)

/-- `loadNotesSummarizerInputs`: default `{notesInput: '', format:
'bullet-points'}`. -/
def loadNotesSummarizerInputs (st : Store) : NotesSummarizerInputs :=
  match st.getItem NOTES_SUMMARIZER_INPUTS_KEY with
  | none => ⟨"", .bulletPoints⟩
  | some j => (decodeNotesSummarizerInputs j).getD ⟨"", .bulletPoints⟩

/-- `saveNotesSummarizerInputs`. -/
def saveNotesSummarizerInputs (st : Store) (v : NotesSummarizerInputs) : Store :=
  st.setItem NOTES_SUMMARIZER_INPUTS_KEY (encodeNotesSummarizerInputs v)

/-- `loadHomeworkCheckerInputs`: default `{question: '', userAnswer: '',
rewriteRequested: false}`. -/
def loadHomeworkCheckerInputs (st : Store) : HomeworkCheckerInputs :=
  match st.getItem HOMEWORK_CHECKER_INPUTS_KEY with
  | none => ⟨"", "", false⟩
  | some j => (decodeHomeworkCheckerInputs j).getD ⟨"", "", false⟩

/-- `saveHomeworkCheckerInputs`. -/
def saveHomeworkCheckerInputs (st : Store) (v : HomeworkCheckerInputs) : Store :=
  st.setItem HOMEWORK_CHECKER_INPUTS_KEY (encodeHomeworkCheckerInputs v)

/-- `loadDeadlinePressureInputs`: default `{tasksInput: ''}`. -/
def loadDeadlinePressureInputs (st : Store) : DeadlinePressureInputs :=
  match st.getItem DEADLINE_PRESSURE_INPUTS_KEY with
  | none => ⟨""⟩
  | some j => (decodeDeadlinePressureInputs j).getD ⟨""⟩

/-- `saveDeadlinePressureInputs`. -/
def saveDeadlinePressureInputs (st : Store) (v : DeadlinePressureInputs) : Store :=
  st.setItem DEADLINE_PRESSURE_INPUTS_KEY (encodeDeadlinePressureInputs v)

/-! ### AI service adapter (`src/unnamed/part_009`, `geminiService`) -/

/-- Whether the second list starts with the first (the pattern). -/
def startsWithChars : List Char → List Char → Bool
  | [], _ => true
  | _ :: _, [] => false
  | a :: as, b :: bs => a == b && startsWithChars as bs

/-- Whether `needle` occurs as a contiguous run inside the second list. -/
def containsChars (needle : List Char) : List Char → Bool
  | [] => startsWithChars needle []
  | c :: rest => startsWithChars needle (c :: rest) || containsChars needle rest

/-- JS `String.prototype.includes`: `hay` contains `needle`. -/
def containsSubstring (hay needle : String) : Bool :=
  containsChars needle.data hay.data

/-- JS `String.prototype.trim`, modelled over the character list: drop
whitespace from both ends. -/
def jsTrim (s : String) : String :=
  String.mk (((s.data.dropWhile Char.isWhitespace).reverse.dropWhile
    Char.isWhitespace).reverse)

/-- The service's distinguished invalid-key error text matched in both catch
blocks. -/
def NOT_FOUND_MSG : String := "Requested entity was not found."

/-- The no-content error thrown inside `callGeminiApi`'s try body. -/
def NO_CONTENT_MSG : String :=
  "Gemini API returned an empty or non-textual response where text was expected."

/-- The generic wrapping of errors in `callGeminiApi`'s catch block. -/
def TEXT_FAIL_MSG : String := "Failed to get response from AI: "

/-- The generic wrapping of errors in `callGeminiApiJson`'s catch block. -/
def JSON_FAIL_MSG : String := "Failed to get JSON response from AI: "

/-- The invalid-key message thrown when the underlying error contains
`NOT_FOUND_MSG`. -/
def apiKeyInvalidMsg (msg : String) : String :=
  "API Key might be invalid or not selected. Please re-select your API key. (Details: "
    ++ msg ++ ")"

/-- The catch-block classification shared by both adapter entry points: an
underlying message containing `NOT_FOUND_MSG` becomes the invalid-key message;
everything else is wrapped with the generic failure text (an empty message
becomes "Unknown error" via `error.message || "Unknown error"`). -/
def classifyCatch (genericWrap msg : String) : String :=
  if containsSubstring msg NOT_FOUND_MSG then apiKeyInvalidMsg msg
  else genericWrap ++ (if msg = "" then "Unknown error" else msg)

/-- A successful service response: the primary `response.text` field
(`undefined`/`null` as `none`) and the text of each candidate content part
(`none` for parts without a text field). -/
structure GenResponse where
  text : Option String
  parts : List (Option String)

/-- The outcome of the underlying `ai.models.generateContent` call: a response,
or a thrown error with its message. -/
inductive ServiceResult where
  | ok (response : GenResponse)
  | err (message : String)

/-- The parts fallback in `callGeminiApi`: keep parts with truthy (non-empty)
text, extract their text and join with newlines. -/
def joinParts (parts : List (Option String)) : String :=
  String.intercalate "\n" ((parts.filterMap id).filter (fun s => !(s == "")))

/-- The text-extraction logic of `callGeminiApi`'s try body: return the primary
text if present; else the newline-joined parts if non-empty (truthy); else
throw the no-content error. -/
def extractText (r : GenResponse) : Except String String :=
  match r.text with
  | some t => .ok t
  | none =>
    let textParts := joinParts r.parts
    if textParts ≠ "" then .ok textParts
    else .error NO_CONTENT_MSG

/-- From `geminiService.callGeminiApi`: run the service call and text
extraction inside a try whose catch classifies any thrown message. -/
def callGeminiApi (res : ServiceResult) : Except String String :=
  match res with
  | .err m => .error (classifyCatch TEXT_FAIL_MSG m)
  | .ok r =>
    match extractText r with
    | .ok t => .ok t
    | .error m => .error (classifyCatch TEXT_FAIL_MSG m)

/-- From `geminiService.callGeminiApiJson`: trim the primary text, throw an
empty-JSON error if falsy, else attempt `JSON.parse` (modelled by the `parse`
argument); a parse failure throws the malformed-JSON error carrying the raw
text. All throws pass through the same catch classification. -/
def callGeminiApiJson (parse : String → Option α) (res : ServiceResult) :
    Except String α :=
  match res with
  | .err m => .error (classifyCatch JSON_FAIL_MSG m)
  | .ok r =>
    let jsonText := jsTrim (r.text.getD "")
    if jsonText = "" then
      .error (classifyCatch JSON_FAIL_MSG "Gemini API returned an empty JSON response.")
    else
      match parse jsonText with
      | some v => .ok v
      | none => .error (classifyCatch JSON_FAIL_MSG
          ("AI did not return a valid JSON format. Raw response: " ++ jsonText))

/-! ### Instant Decision Helper (`src/unnamed/part_005`) -/

/-- The initial `scenarios` state: two empty option slots. -/
def initialScenarios : List String := ["", ""]

/-- `addScenario`: append one more empty option slot. -/
def addScenario (scenarios : List String) : List String :=
  scenarios ++ [""]

/-- `removeScenario`: filter out the indexed slot, but only when more than two
slots remain. -/
def removeScenario (scenarios : List String) (index : Nat) : List String :=
  if scenarios.length > 2 then scenarios.eraseIdx index else scenarios

/-- `handleScenarioChange`: overwrite the indexed slot. -/
def handleScenarioChange (scenarios : List String) (index : Nat) (value : String) :
    List String :=
  scenarios.set index value

/-- `clearDecision` resets the scenarios to two empty slots. -/
def clearDecision : List String := ["", ""]

/-- Whether a decision-helper submission issues the network call or is blocked
by validation. -/
inductive SubmitOutcome where
  | blocked
  | callsNetwork
deriving DecidableEq, Repr

/-- The validation guard of the decision helper's `handleSubmit`:
`if (!contextPrompt.trim() || scenarios.some(s => !s.trim()))` set an error
and return before any network call. -/
def decisionHandleSubmit (contextPrompt : String) (scenarios : List String) :
    SubmitOutcome :=
  if jsTrim contextPrompt = "" ∨ scenarios.any (fun s => jsTrim s = "") then .blocked
  else .callsNetwork

/-- The scenario lists reachable in the decision-helper UI: starting from the
initial two empty slots via add, remove, per-slot edits and the clear reset. -/
inductive ReachableScenarios : List String → Prop where
  | initial : ReachableScenarios initialScenarios
  | add (s : List String) : ReachableScenarios s → ReachableScenarios (addScenario s)
  | remove (s : List String) (i : Nat) :
      ReachableScenarios s → ReachableScenarios (removeScenario s i)
  | change (s : List String) (i : Nat) (v : String) :
      ReachableScenarios s → ReachableScenarios (handleScenarioChange s i v)
  | clear (s : List String) : ReachableScenarios s → ReachableScenarios clearDecision

/-! ### Deadline Pressure Meter gauge (`src/components/DeadlinePressureMeter.tsx`) -/

/-- From `VisualPressureGauge`: the sequence of label reassignments
`label = "Chilled 😎"; if (score > 25) ...; if (score > 50) ...;
if (score > 75) ...; if (score > 90) ...`. -/
def gaugeLabel (score : Nat) : String :=
  let label0 := "Chilled 😎"
  let label1 := if score > 25 then "Balanced ⚖️" else label0
  let label2 := if score > 50 then "Busy 🏃" else label1
  let label3 := if score > 75 then "Pressure High! 🔥" else label2
  if score > 90 then "CRITICAL 🚨" else label3

/-! ### Chat Component submission (`src/components/ChatComponent.tsx`) and the
Deadline Pressure Meter chat-update handler -/

/-- Outcome of the awaited AI request underlying a tool handler. -/
inductive AiOutcome (α : Type) where
  | ok (value : α)
  | fail (message : String)

/-- The Deadline Pressure Meter component state touched by `handleCalculate`:
the analysis result, the chat summary derived from it, and the inline error. -/
structure DpmState (α : Type) where
  analysis : Option α
  chatSummary : Option String
  error : Option String

/-- From `DeadlinePressureMeter.handleCalculate` on the chat-update path
(`handleChatSubmit`): clear the error, await the JSON call inside try/catch;
on success store the analysis and its summary and fire PRESSURE_CALCULATED
itself; on failure store the error message (`err.message || "Failed to
calculate pressure."`) and fire nothing. The handler never rethrows, so the
promise returned to the Chat Component always resolves. Returns the new
component state and the actions fired inside the handler. -/
def dpmHandleChatCalculate (summaryOf : α → String) (outcome : AiOutcome α)
    (st : DpmState α) : DpmState α × List ActionType :=
  match outcome with
  | .ok a =>
    ({ analysis := some a, chatSummary := some (summaryOf a), error := none },
      [.PRESSURE_CALCULATED])
  | .fail m =>
    ({ st with error := some (if m = "" then "Failed to calculate pressure." else m) },
      [])

/-- From `ChatComponent.handleSubmit`: if the input is non-empty after trimming
and not loading, clear the prior response, await the submit callback, then (if
an `onAction` callback was supplied) fire the gamification action once, then
clear the input. The callback is a total state transformer (it resolves; a
rejecting callback would skip the action). Returns the new tool state, the
actions fired inside the callback, and the actions fired by the chat component
itself. -/
def chatHandleSubmit (input : String) (loading : Bool) (hasOnAction : Bool)
    (onSubmit : σ → σ × List ActionType) (st : σ) (actionType : ActionType) :
    σ × List ActionType × List ActionType :=
  if jsTrim input ≠ "" ∧ loading = false then
    let r := onSubmit st
    (r.1, r.2, if hasOnAction then [actionType] else [])
  else (st, [], [])

/-! ## Theorems -/

set_option maxHeartbeats 1000000 in
/-- Closed form of `calculateLevelFromXp`, used in proofs. -/
theorem calculateLevelFromXp_closed (xp : Nat) :
    calculateLevelFromXp xp =
      if 10000 ≤ xp then 9 else if 7500 ≤ xp then 8 else if 5000 ≤ xp then 7
      else if 3500 ≤ xp then 6 else if 2000 ≤ xp then 5 else if 1000 ≤ xp then 4
      else if 500 ≤ xp then 3 else if 250 ≤ xp then 2 else if 100 ≤ xp then 1
      else 0 := by
  simp only [calculateLevelFromXp, XP_LEVELS, calcLevelLoop, ge_iff_le]
  split_ifs <;> omega

set_option maxHeartbeats 2000000 in
/-- `calculateLevelFromXp xp` is a valid index into `XP_LEVELS`, its threshold
is at most `xp`, and it dominates every index whose threshold is at most
`xp`. -/
theorem levelFromXp_spec (xp : Nat) :
    calculateLevelFromXp xp < XP_LEVELS.length ∧
    XP_LEVELS.getD (calculateLevelFromXp xp) 0 ≤ xp ∧
    (∀ j, j < XP_LEVELS.length → XP_LEVELS.getD j 0 ≤ xp →
      j ≤ calculateLevelFromXp xp) := by
  rw [calculateLevelFromXp_closed]
  have hlen : XP_LEVELS.length = 10 := by rfl
  rw [hlen]
  split_ifs with h1 h2 h3 h4 h5 h6 h7 h8 h9 <;>
    refine ⟨by omega, by simp [XP_LEVELS] <;> omega, ?_⟩ <;>
    · intro j hj hle
      interval_cases j <;> simp [XP_LEVELS] at hle <;> omega

/-- `calculateLevelFromXp` is monotone in the XP value. -/
theorem calculateLevelFromXp_mono {xp xp' : Nat} (h : xp ≤ xp') :
    calculateLevelFromXp xp ≤ calculateLevelFromXp xp' :=
  (levelFromXp_spec xp').2.2 _ (levelFromXp_spec xp).1
    (le_trans (levelFromXp_spec xp).2.1 h)

/-- The badge check never touches the streak, activity date, XP state or
count map. -/
theorem badgeCheck_preserves (w : DailyAchievementState) (b : AchievementType) :
    (getUpdatedStateAfterBadgeCheck w b).updatedState.currentStreak = w.currentStreak ∧
    (getUpdatedStateAfterBadgeCheck w b).updatedState.lastActivityDate = w.lastActivityDate ∧
    (getUpdatedStateAfterBadgeCheck w b).updatedState.xpState = w.xpState ∧
    (getUpdatedStateAfterBadgeCheck w b).updatedState.dailyActionCounts = w.dailyActionCounts := by
  unfold getUpdatedStateAfterBadgeCheck
  split_ifs <;> simp

/-- The streak and activity-date components of the day-boundary effect,
expressed directly as a case split on the previous `lastActivityDate`. -/
theorem streakEffect_streak_lastDate (today : Nat) (s : DailyAchievementState) :
    (streakEffect today s).1.currentStreak =
      (match s.lastActivityDate with
       | some lastActivity =>
         if Nat.dist today lastActivity = 1 then s.currentStreak + 1
         else if Nat.dist today lastActivity > 1 then 1
         else s.currentStreak
       | none => 1) ∧
    (streakEffect today s).1.lastActivityDate =
      (match s.lastActivityDate with
       | some lastActivity =>
         if Nat.dist today lastActivity = 1 then some today
         else if Nat.dist today lastActivity > 1 then some today
         else s.lastActivityDate
       | none => some today) := by
  unfold streakEffect
  rcases s.lastActivityDate with _ | lastActivity
  · simp only []
    split_ifs with h <;>
      simp [getUpdatedStateAfterBadgeCheck] <;> split_ifs <;> simp
  · simp only []
    split_ifs <;> simp_all [getUpdatedStateAfterBadgeCheck] <;> split_ifs <;> simp

/-- C1: for every non-negative integer `xp`, `calculateLevelFromXp xp` is the
largest index `i` in the threshold table `[0, 100, 250, 500, 1000, 2000, 3500,
5000, 7500, 10000]` with `xp ≥ XP_LEVELS[i]` (hence monotonically
non-decreasing in `xp`); in particular `level 99 = 0`, `level 100 = 1`,
`level 249 = 1`, `level 250 = 2`, `level 10000 = 9` and `level 999999 = 9`. -/
theorem C1_level_is_greatest_threshold_index :
    (∀ xp : Nat,
      calculateLevelFromXp xp < XP_LEVELS.length ∧
      XP_LEVELS.getD (calculateLevelFromXp xp) 0 ≤ xp ∧
      (∀ j, j < XP_LEVELS.length → XP_LEVELS.getD j 0 ≤ xp →
        j ≤ calculateLevelFromXp xp)) ∧
    (∀ xp xp' : Nat, xp ≤ xp' → calculateLevelFromXp xp ≤ calculateLevelFromXp xp') ∧
    calculateLevelFromXp 99 = 0 ∧ calculateLevelFromXp 100 = 1 ∧
    calculateLevelFromXp 249 = 1 ∧ calculateLevelFromXp 250 = 2 ∧
    calculateLevelFromXp 10000 = 9 ∧ calculateLevelFromXp 999999 = 9 :=
  ⟨levelFromXp_spec, fun _ _ h => calculateLevelFromXp_mono h,
    by rw [calculateLevelFromXp_closed]; norm_num,
    by rw [calculateLevelFromXp_closed]; norm_num,
    by rw [calculateLevelFromXp_closed]; norm_num,
    by rw [calculateLevelFromXp_closed]; norm_num,
    by rw [calculateLevelFromXp_closed]; norm_num,
    by rw [calculateLevelFromXp_closed]; norm_num⟩

/-- Witness for C1 at concrete inputs: the level of 250 XP has threshold at
most 250, dominates index 2, and monotonicity applies between 100 and 250. -/
theorem C1_witness :
    XP_LEVELS.getD (calculateLevelFromXp 250) 0 ≤ 250 ∧
    2 ≤ calculateLevelFromXp 250 ∧
    calculateLevelFromXp 100 ≤ calculateLevelFromXp 250 :=
  ⟨(C1_level_is_greatest_threshold_index.1 250).2.1,
   (C1_level_is_greatest_threshold_index.1 250).2.2 2 (by decide) (by decide),
   C1_level_is_greatest_threshold_index.2.1 100 250 (by decide)⟩

/-- C2: the day-boundary streak update (`streakEffect`): with
`lastActivityDate` exactly one day before today the streak increments by 1 and
`lastActivityDate` becomes today; with a gap of more than one day the streak
resets to 1; with `lastActivityDate` equal to today the streak and
`lastActivityDate` are left unchanged; with no `lastActivityDate` the streak
becomes 1. -/
theorem C2_day_boundary_streak_update (today : Nat) (s : DailyAchievementState) :
    (∀ lastActivity, s.lastActivityDate = some lastActivity →
      lastActivity + 1 = today →
      (streakEffect today s).1.currentStreak = s.currentStreak + 1 ∧
      (streakEffect today s).1.lastActivityDate = some today) ∧
    (∀ lastActivity, s.lastActivityDate = some lastActivity →
      lastActivity + 1 < today →
      (streakEffect today s).1.currentStreak = 1) ∧
    (s.lastActivityDate = some today →
      (streakEffect today s).1.currentStreak = s.currentStreak ∧
      (streakEffect today s).1.lastActivityDate = s.lastActivityDate) ∧
    (s.lastActivityDate = none →
      (streakEffect today s).1.currentStreak = 1) := by
  obtain ⟨hs, hd⟩ := streakEffect_streak_lastDate today s
  refine ⟨?_, ?_, ?_, ?_⟩
  · intro lastActivity hlast hsucc
    have h1 : Nat.dist today lastActivity = 1 := by simp [Nat.dist]; omega
    rw [hs, hd, hlast]
    simp [h1]
  · intro lastActivity hlast hgt
    have h1 : Nat.dist today lastActivity > 1 := by simp [Nat.dist]; omega
    have h2 : Nat.dist today lastActivity ≠ 1 := by omega
    rw [hs, hlast]
    simp [h1, h2]
  · intro hlast
    have h0 : Nat.dist today today = 0 := by simp [Nat.dist]
    rw [hs, hd, hlast]
    simp [h0]
  · intro hlast
    rw [hs, hlast]

/-- Witness for C2: from streak 3 with last activity on day 4, the effect run
on day 5 yields streak 4 and activity date 5; run on day 9 it resets to 1;
run with no prior date it yields 1. -/
theorem C2_witness :
    ((streakEffect 5
        (DailyAchievementState.mk ⟨0, 0⟩ [] 3 (some 4) [])).1.currentStreak = 3 + 1 ∧
      (streakEffect 5
        (DailyAchievementState.mk ⟨0, 0⟩ [] 3 (some 4) [])).1.lastActivityDate = some 5) ∧
    (streakEffect 9
      (DailyAchievementState.mk ⟨0, 0⟩ [] 3 (some 4) [])).1.currentStreak = 1 ∧
    (streakEffect 5
      (DailyAchievementState.mk ⟨0, 0⟩ [] 0 none [])).1.currentStreak = 1 :=
  ⟨(C2_day_boundary_streak_update 5 _).1 4 rfl (by decide),
   (C2_day_boundary_streak_update 9 _).2.1 4 rfl (by decide),
   (C2_day_boundary_streak_update 5 _).2.2.2 rfl⟩

/-- `List.lookup` after `setCounts` at the stored key returns the stored
record. -/
theorem lookup_setCounts_self (m : List (Nat × DailyActivityCounts)) (d : Nat)
    (c : DailyActivityCounts) : (setCounts m d c).lookup d = some c := by
  simp [setCounts, List.lookup]

/-- C3: in `handleAction`, a STUDY_PLAN_GENERATED action on a day whose
`studyPlansGenerated` count is 0 awards exactly 15 XP and sets the count to 1;
a STUDY_PLAN_GENERATED action on a day whose count is already 1 awards no XP
and leaves the count at 1. -/
theorem C3_study_plan_xp_once_per_day (today : Nat) (s : DailyAchievementState)
    (hoursPerDay : Option Nat) :
    (((s.dailyActionCounts.lookup today).getD emptyCounts).studyPlansGenerated = 0 →
      (handleAction today .STUDY_PLAN_GENERATED hoursPerDay s).xpEarned = 15 ∧
      (handleAction today .STUDY_PLAN_GENERATED hoursPerDay s).state.xpState.xp =
        s.xpState.xp + 15 ∧
      (((handleAction today .STUDY_PLAN_GENERATED hoursPerDay
          s).state.dailyActionCounts.lookup today).getD
            emptyCounts).studyPlansGenerated = 1) ∧
    (((s.dailyActionCounts.lookup today).getD emptyCounts).studyPlansGenerated = 1 →
      (handleAction today .STUDY_PLAN_GENERATED hoursPerDay s).xpEarned = 0 ∧
      (handleAction today .STUDY_PLAN_GENERATED hoursPerDay s).state.xpState.xp =
        s.xpState.xp ∧
      (((handleAction today .STUDY_PLAN_GENERATED hoursPerDay
          s).state.dailyActionCounts.lookup today).getD
            emptyCounts).studyPlansGenerated = 1) := by
  constructor
  · intro h0
    simp only [handleAction, handleActionStep, h0, XP_AWARDS]
    split_ifs <;>
      simp [getUpdatedStateAfterBadgeCheck, lookup_setCounts_self] <;> split_ifs <;> simp
  · intro h1
    simp only [handleAction, handleActionStep, h1, XP_AWARDS]
    split_ifs <;>
      simp_all [getUpdatedStateAfterBadgeCheck, lookup_setCounts_self] <;>
        split_ifs <;> simp_all

/-- Witness for C3: starting from the empty state on day 0, the first study
plan earns 15 XP; on a state whose day-0 count is already 1, a second one
earns 0. -/
theorem C3_witness :
    ((handleAction 0 .STUDY_PLAN_GENERATED (some 3)
        (DailyAchievementState.mk ⟨0, 0⟩ [] 0 none [])).xpEarned = 15) ∧
    ((handleAction 0 .STUDY_PLAN_GENERATED (some 3)
        (DailyAchievementState.mk ⟨20, 0⟩ [] 1 (some 0)
          [(0, DailyActivityCounts.mk 1 0 0 0 0 0 false)])).xpEarned = 0) :=
  ⟨((C3_study_plan_xp_once_per_day 0 _ (some 3)).1 (by decide)).1,
   ((C3_study_plan_xp_once_per_day 0 _ (some 3)).2 (by decide)).1⟩

/-- C4: a badge-unlock check for a badge already in `unlockedBadges` returns
the state unchanged, reports `didUnlock = false` and no newly unlocked badge
(so `handleAction` neither shows the celebration overlay nor fires the
badge-unlock sound for it); and the check preserves duplicate-freeness of
`unlockedBadges`. -/
theorem C4_badge_unlock_idempotent :
    (∀ (s : DailyAchievementState) (b : AchievementType), b ∈ s.unlockedBadges →
      (getUpdatedStateAfterBadgeCheck s b).updatedState = s ∧
      (getUpdatedStateAfterBadgeCheck s b).didUnlock = false ∧
      (getUpdatedStateAfterBadgeCheck s b).unlockedBadge = none) ∧
    (∀ (s : DailyAchievementState) (b : AchievementType), s.unlockedBadges.Nodup →
      (getUpdatedStateAfterBadgeCheck s b).updatedState.unlockedBadges.Nodup) := by
  constructor
  · intro s b hb
    simp [getUpdatedStateAfterBadgeCheck, hb]
  · intro s b hnd
    unfold getUpdatedStateAfterBadgeCheck
    split_ifs with h <;> simp_all [List.nodup_append]

/-- Witness for C4: with FOCUS_BEAST already unlocked, re-checking it leaves
the state unchanged with no unlock, and duplicate-freeness is preserved. -/
theorem C4_witness :
    ((getUpdatedStateAfterBadgeCheck
        (DailyAchievementState.mk ⟨0, 0⟩ [.FOCUS_BEAST] 0 none [])
        .FOCUS_BEAST).updatedState =
      DailyAchievementState.mk ⟨0, 0⟩ [.FOCUS_BEAST] 0 none [] ∧
     (getUpdatedStateAfterBadgeCheck
        (DailyAchievementState.mk ⟨0, 0⟩ [.FOCUS_BEAST] 0 none [])
        .FOCUS_BEAST).didUnlock = false ∧
     (getUpdatedStateAfterBadgeCheck
        (DailyAchievementState.mk ⟨0, 0⟩ [.FOCUS_BEAST] 0 none [])
        .FOCUS_BEAST).unlockedBadge = none) ∧
    (getUpdatedStateAfterBadgeCheck
      (DailyAchievementState.mk ⟨0, 0⟩ [.FOCUS_BEAST] 0 none [])
      .NOTES_HERO).updatedState.unlockedBadges.Nodup :=
  ⟨C4_badge_unlock_idempotent.1 _ .FOCUS_BEAST (by simp),
   C4_badge_unlock_idempotent.2 _ .NOTES_HERO (by simp)⟩

/-- Parsing a serialized date key recovers the day number. -/
theorem parseDateKey_dateKey (d : Nat) : parseDateKey (dateKey d) = d := by
  unfold parseDateKey dateKey
  rw [show (String.mk ((Nat.digits 10 d).reverse.map (fun k => Char.ofNat (48 + k)))).data
      = (Nat.digits 10 d).reverse.map (fun k => Char.ofNat (48 + k)) from rfl]
  rw [List.map_map]
  have hmap : ((Nat.digits 10 d).reverse.map
      ((fun c => c.toNat - 48) ∘ (fun k => Char.ofNat (48 + k)))) =
      (Nat.digits 10 d).reverse.map id := by
    apply List.map_congr_left
    intro k hk
    have hk10 : k < 10 := Nat.digits_lt_base (by norm_num) (List.mem_reverse.mp hk)
    interval_cases k <;> rfl
  rw [hmap, List.map_id, List.reverse_reverse, Nat.ofDigits_digits]

/-- `decodeList` inverts an element-wise encoding. -/
theorem decodeList_map (g : Json → Option α) (f : α → Json)
    (h : ∀ a, g (f a) = some a) (l : List α) :
    decodeList g (l.map f) = some l := by
  induction l with
  | nil => rfl
  | cons a l ih => simp [decodeList, h, ih]

/-- Parsing the serialized counts map recovers it. -/
theorem decodeCountsMap_encode (m : List (Nat × DailyActivityCounts)) :
    decodeCountsMap (encodeCountsMap m) = some m := by
  unfold decodeCountsMap encodeCountsMap
  induction m with
  | nil => rfl
  | cons p rest ih =>
      obtain ⟨d, c⟩ := p
      simp only [List.map_cons, decodeCountsEntries, parseDateKey_dateKey]
      rw [show decodeCounts (encodeCounts c) = some c from rfl]
      simp_all [decodeCountsEntries]

/-- The badge string codec round-trips. -/
theorem achievement_round (a : AchievementType) :
    achievementFromString a.value = some a := by cases a <;> rfl

/-- Parsing a serialized `DailyAchievementState` recovers it. -/
theorem decodeDailyAchievementState_encode (s : DailyAchievementState) :
    decodeDailyAchievementState (encodeDailyAchievementState s) = some s := by
  obtain ⟨x, badges, cs, lastDate, m⟩ := s
  simp only [encodeDailyAchievementState, decodeDailyAchievementState]
  rw [show decodeXpState (encodeXpState x) = some x from rfl]
  rw [decodeList_map _ _ (fun a => by simp [Json.asString, achievement_round])]
  rw [show decodeLastDate (encodeLastDate lastDate) = some lastDate from ?_]
  · rw [decodeCountsMap_encode]; rfl
  · cases lastDate <;> simp [encodeLastDate, decodeLastDate, parseDateKey_dateKey]

/-- The tool-name string codec round-trips. -/
theorem toolName_round (t : ToolName) : toolNameFromString t.value = some t := by
  cases t <;> rfl

/-- Parsing a serialized `SavedItem` recovers it. -/
theorem decodeSavedItem_encode (v : SavedItem) :
    decodeSavedItem (encodeSavedItem v) = some v := by
  obtain ⟨id, t, title, content, ts⟩ := v
  simp [encodeSavedItem, decodeSavedItem, toolName_round]

/-- Parsing the serialized saved-items array recovers it. -/
theorem decodeSavedItems_encode (items : List SavedItem) :
    decodeSavedItems (encodeSavedItems items) = some items := by
  unfold decodeSavedItems encodeSavedItems
  exact decodeList_map _ _ decodeSavedItem_encode items

/-- The difficulty string codec round-trips. -/
theorem difficulty_round (x : DifficultyLevel) :
    difficultyFromString x.value = some x := by cases x <;> rfl

set_option maxHeartbeats 2000000 in
/-- Parsing a serialized `StudyRoutineInputs` recovers it (all 32 combinations
of present/absent optional fields). -/
theorem decodeStudyRoutineInputs_encode (v : StudyRoutineInputs) :
    decodeStudyRoutineInputs (encodeStudyRoutineInputs v) = some v := by
  obtain ⟨subjects, hours, diff, ig, gm, gs, gh, gd⟩ := v
  rcases ig with _ | ig <;> rcases gm with _ | gm <;> rcases gs with _ | gs <;>
    rcases gh with _ | gh <;> rcases gd with _ | gd <;>
      simp [encodeStudyRoutineInputs, decodeStudyRoutineInputs, optField,
        decodeOptField, List.lookup, Json.asString, Json.asNat, Json.asBool,
        difficulty_round]

/-- The note-format string codec round-trips. -/
theorem noteFormat_round (x : NoteFormat) : noteFormatFromString x.value = some x := by
  cases x <;> rfl

/-- Reading a key straight after writing it returns the written value. -/
theorem getItem_setItem (st : Store) (k : String) (v : Json) :
    (st.setItem k v).getItem k = some v := by
  simp [Store.setItem, Store.getItem, List.lookup]

/-- C5: for every persisted record type (saved-items array, daily achievement
state, each per-tool draft-input record, sound preference), saving a value and
then loading it returns the saved value; and loading from a storage holding
nothing returns exactly the documented default (empty array; zero XP and
level, no badges, zero streak, no last-activity date, empty daily-counts map;
each tool's input defaults; sound on). -/
theorem C5_persistence_round_trip :
    (∀ (st : Store) (items : List SavedItem),
      loadSavedItems (saveItems st items) = items) ∧
    (∀ (st : Store) (s : DailyAchievementState),
      loadDailyAchievementState (saveDailyAchievementState st s) = s) ∧
    (∀ (st : Store) (v : StudyRoutineInputs),
      loadStudyRoutineInputs (saveStudyRoutineInputs st v) = v) ∧
    (∀ (st : Store) (v : NotesSummarizerInputs),
      loadNotesSummarizerInputs (saveNotesSummarizerInputs st v) = v) ∧
    (∀ (st : Store) (v : HomeworkCheckerInputs),
      loadHomeworkCheckerInputs (saveHomeworkCheckerInputs st v) = v) ∧
    (∀ (st : Store) (v : DeadlinePressureInputs),
      loadDeadlinePressureInputs (saveDeadlinePressureInputs st v) = v) ∧
    (∀ (st : Store) (b : Bool), loadSoundEnabled (saveSoundEnabled st b) = b) ∧
    loadSavedItems emptyStore = [] ∧
    loadDailyAchievementState emptyStore = defaultDailyAchievementState ∧
    loadStudyRoutineInputs emptyStore = ⟨"", 3, .medium, none, none, none, none, none⟩ ∧
    loadNotesSummarizerInputs emptyStore = ⟨"", .bulletPoints⟩ ∧
    loadHomeworkCheckerInputs emptyStore = ⟨"", "", false⟩ ∧
    loadDeadlinePressureInputs emptyStore = ⟨""⟩ ∧
    loadSoundEnabled emptyStore = true := by
  refine ⟨?_, ?_, ?_, ?_, ?_, ?_, ?_, rfl, rfl, rfl, rfl, rfl, rfl, rfl⟩
  · intro st items
    simp [loadSavedItems, saveItems, getItem_setItem, decodeSavedItems_encode]
  · intro st s
    simp [loadDailyAchievementState, saveDailyAchievementState, getItem_setItem,
      decodeDailyAchievementState_encode]
  · intro st v
    simp [loadStudyRoutineInputs, saveStudyRoutineInputs, getItem_setItem,
      decodeStudyRoutineInputs_encode v]
  · intro st v
    obtain ⟨n, f⟩ := v
    simp [loadNotesSummarizerInputs, saveNotesSummarizerInputs, getItem_setItem,
      encodeNotesSummarizerInputs, decodeNotesSummarizerInputs, noteFormat_round]
  · intro st v
    obtain ⟨q, a, r⟩ := v
    simp [loadHomeworkCheckerInputs, saveHomeworkCheckerInputs, getItem_setItem,
      encodeHomeworkCheckerInputs, decodeHomeworkCheckerInputs]
  · intro st v
    obtain ⟨t⟩ := v
    simp [loadDeadlinePressureInputs, saveDeadlinePressureInputs, getItem_setItem,
      encodeDeadlinePressureInputs, decodeDeadlinePressureInputs]
  · intro st b
    simp [loadSoundEnabled, saveSoundEnabled, getItem_setItem, Json.asBool]

/-- `startsWithChars pat l` agrees with the list-prefix relation. -/
theorem startsWithChars_iff (pat l : List Char) :
    startsWithChars pat l = true ↔ pat <+: l := by
  induction pat generalizing l with
  | nil => simp [startsWithChars]
  | cons a as ih =>
    cases l with
    | nil => simp [startsWithChars]
    | cons b bs =>
      rw [show startsWithChars (a :: as) (b :: bs) = (a == b && startsWithChars as bs)
        from rfl]
      simp [List.cons_prefix_cons, ih, Bool.and_eq_true, beq_iff_eq]

/-- `containsChars needle hay` agrees with the list-infix relation. -/
theorem containsChars_iff (needle hay : List Char) :
    containsChars needle hay = true ↔ needle <:+: hay := by
  induction hay with
  | nil =>
    simp [containsChars, startsWithChars_iff]
  | cons c rest ih =>
    simp [containsChars, startsWithChars_iff, ih, List.infix_cons_iff]

/-- `containsSubstring` agrees with infixhood of the character data. -/
theorem containsSubstring_iff (hay needle : String) :
    containsSubstring hay needle = true ↔ needle.data <:+: hay.data := by
  simp [containsSubstring, containsChars_iff]

/-- Sufficient condition for `containsSubstring`. -/
theorem containsSubstring_of_infix {hay needle : String}
    (h : needle.data <:+: hay.data) : containsSubstring hay needle = true :=
  (containsSubstring_iff hay needle).mpr h

/-- C6: in both adapter entry points, an underlying failure whose message
contains "Requested entity was not found." is rethrown as the invalid-key
message (which states the API key might be invalid and carries the original
message); any other underlying failure is rethrown wrapped with the generic
failed-to-get-response prefix; and a JSON-mode call whose non-empty trimmed
response text fails to parse throws an error whose message contains that raw
response text. -/
theorem C6_adapter_error_classification :
    (∀ msg, containsSubstring msg NOT_FOUND_MSG = true →
      callGeminiApi (.err msg) = .error (apiKeyInvalidMsg msg) ∧
      (∀ (parse : String → Option Json),
        callGeminiApiJson parse (.err msg) = .error (apiKeyInvalidMsg msg)) ∧
      containsSubstring (apiKeyInvalidMsg msg) "API Key might be invalid" = true) ∧
    (∀ msg, containsSubstring msg NOT_FOUND_MSG = false → msg ≠ "" →
      callGeminiApi (.err msg) = .error (TEXT_FAIL_MSG ++ msg) ∧
      (∀ (parse : String → Option Json),
        callGeminiApiJson parse (.err msg) = .error (JSON_FAIL_MSG ++ msg))) ∧
    (∀ (parse : String → Option Json) (r : GenResponse) (t : String),
      r.text = some t → jsTrim t ≠ "" → parse (jsTrim t) = none →
      ∃ e, callGeminiApiJson parse (.ok r) = .error e ∧
        containsSubstring e (jsTrim t) = true) := by
  refine ⟨?_, ?_, ?_⟩
  · intro msg h
    refine ⟨by simp [callGeminiApi, classifyCatch, h], fun parse => by
      simp [callGeminiApiJson, classifyCatch, h], ?_⟩
    apply containsSubstring_of_infix
    refine ⟨[],
      (" or not selected. Please re-select your API key. (Details: " ++ msg ++ ")").data, ?_⟩
    simp [apiKeyInvalidMsg, String.data_append]
  · intro msg h hne
    exact ⟨by simp [callGeminiApi, classifyCatch, h, hne], fun parse => by
      simp [callGeminiApiJson, classifyCatch, h, hne]⟩
  · intro parse r t ht htrim hparse
    refine ⟨classifyCatch JSON_FAIL_MSG
      ("AI did not return a valid JSON format. Raw response: " ++ jsTrim t), ?_, ?_⟩
    · simp [callGeminiApiJson, ht, htrim, hparse]
    · unfold classifyCatch
      split_ifs with h hemp
      · apply containsSubstring_of_infix
        refine ⟨("API Key might be invalid or not selected. Please re-select your API key. (Details: "
            ++ "AI did not return a valid JSON format. Raw response: ").data, ")".data, ?_⟩
        simp [apiKeyInvalidMsg, String.data_append]
      · exact absurd (congrArg String.data hemp) (by simp [String.data_append])
      · apply containsSubstring_of_infix
        refine ⟨(JSON_FAIL_MSG ++ "AI did not return a valid JSON format. Raw response: ").data,
          [], ?_⟩
        simp [String.data_append]

/-- Witness for C6: the distinguished message maps to the invalid-key error,
"boom" maps to the generic wrap, and a non-JSON response produces an error
containing the raw text. -/
theorem C6_witness :
    callGeminiApi (.err "Requested entity was not found.") =
      .error (apiKeyInvalidMsg "Requested entity was not found.") ∧
    callGeminiApi (.err "boom") = .error (TEXT_FAIL_MSG ++ "boom") ∧
    (∃ e, callGeminiApiJson (fun _ => (none : Option Json))
        (.ok ⟨some "notjson", []⟩) = .error e ∧
      containsSubstring e (jsTrim "notjson") = true) :=
  ⟨(C6_adapter_error_classification.1 "Requested entity was not found." (by decide)).1,
   (C6_adapter_error_classification.2.1 "boom" (by decide) (by decide)).1,
   C6_adapter_error_classification.2.2 _ ⟨some "notjson", []⟩ "notjson" rfl
     (by decide) rfl⟩

/-- C7: in the text-mode adapter, a present primary text field is returned
as-is; an absent primary text field falls back to the newline-joined text of
the content parts when non-empty; and the call throws (the wrapped no-content
error) exactly when the primary text is absent and the joined parts are
empty. -/
theorem C7_text_fallback_no_content (r : GenResponse) :
    (∀ t, r.text = some t → callGeminiApi (.ok r) = .ok t) ∧
    (r.text = none → joinParts r.parts ≠ "" →
      callGeminiApi (.ok r) = .ok (joinParts r.parts)) ∧
    (r.text = none → joinParts r.parts = "" →
      callGeminiApi (.ok r) = .error (TEXT_FAIL_MSG ++ NO_CONTENT_MSG)) ∧
    ((∃ e, callGeminiApi (.ok r) = .error e) ↔
      (r.text = none ∧ joinParts r.parts = "")) := by
  have hclass : classifyCatch TEXT_FAIL_MSG NO_CONTENT_MSG =
      TEXT_FAIL_MSG ++ NO_CONTENT_MSG := by
    have h1 : containsSubstring NO_CONTENT_MSG NOT_FOUND_MSG = false := by decide
    have h2 : NO_CONTENT_MSG ≠ "" := by decide
    simp [classifyCatch, h1, h2]
  refine ⟨?_, ?_, ?_, ?_⟩
  · intro t ht
    simp [callGeminiApi, extractText, ht]
  · intro ht hne
    simp [callGeminiApi, extractText, ht, hne]
  · intro ht hempty
    simp [callGeminiApi, extractText, ht, hempty, hclass]
  · constructor
    · rintro ⟨e, he⟩
      rcases hr : r.text with _ | t
      · by_cases hjp : joinParts r.parts = ""
        · exact ⟨rfl, hjp⟩
        · simp [callGeminiApi, extractText, hr, hjp] at he
      · simp [callGeminiApi, extractText, hr] at he
    · rintro ⟨ht, hempty⟩
      exact ⟨TEXT_FAIL_MSG ++ NO_CONTENT_MSG,
        by simp [callGeminiApi, extractText, ht, hempty, hclass]⟩

/-- Witness for C7: a present text field is returned; with no text field the
joined parts are returned; with neither, the wrapped no-content error is
thrown. -/
theorem C7_witness :
    callGeminiApi (.ok ⟨some "txt", []⟩) = .ok "txt" ∧
    callGeminiApi (.ok ⟨none, [some "hello", none, some ""]⟩) =
      .ok (joinParts [some "hello", none, some ""]) ∧
    callGeminiApi (.ok ⟨none, []⟩) = .error (TEXT_FAIL_MSG ++ NO_CONTENT_MSG) :=
  ⟨(C7_text_fallback_no_content ⟨some "txt", []⟩).1 "txt" rfl,
   (C7_text_fallback_no_content ⟨none, [some "hello", none, some ""]⟩).2.1 rfl (by decide),
   (C7_text_fallback_no_content ⟨none, []⟩).2.2.1 rfl (by decide)⟩

/-- C8: every reachable Instant Decision Helper scenario list keeps at least 2
option slots; `removeScenario` is a no-op when exactly 2 remain; `addScenario`
always appends one more slot (no upper bound); and `handleSubmit` issues the
network call exactly when the context and every option are non-empty after
trimming (otherwise it is blocked by validation). -/
theorem C8_decision_helper_invariants :
    (∀ s, ReachableScenarios s → 2 ≤ s.length) ∧
    (∀ (s : List String) (i : Nat), s.length = 2 → removeScenario s i = s) ∧
    (∀ s : List String, (addScenario s).length = s.length + 1) ∧
    (∀ (c : String) (s : List String),
      decisionHandleSubmit c s = .callsNetwork ↔
        (jsTrim c ≠ "" ∧ ∀ x ∈ s, jsTrim x ≠ "")) := by
  refine ⟨?_, ?_, ?_, ?_⟩
  · intro s hs
    induction hs with
    | initial => simp [initialScenarios]
    | add s _ ih => simp [addScenario]; omega
    | remove s i _ ih =>
      unfold removeScenario
      split_ifs with h
      · rw [List.length_eraseIdx]
        split_ifs <;> omega
      · exact ih
    | change s i v _ ih => simpa [handleScenarioChange] using ih
    | clear s _ _ => simp [clearDecision]
  · intro s i hlen
    simp [removeScenario, hlen]
  · intro s
    simp [addScenario]
  · intro c s
    unfold decisionHandleSubmit
    split_ifs with h
    · simp only [false_iff]
      intro ⟨hc, hall⟩
      rcases h with h | h
      · exact hc h
      · obtain ⟨x, hx, hxe⟩ := List.any_eq_true.mp h
        exact hall x hx (by simpa using hxe)
    · push_neg at h
      simp only [true_iff]
      refine ⟨h.1, fun x hx hxe => ?_⟩
      exact h.2 (List.any_eq_true.mpr ⟨x, hx, by simpa using hxe⟩)

/-- Witness for C8: the initial state has at least 2 slots; removing from a
2-slot list is a no-op; adding grows the length to 3; and a filled form
submits while one with an empty option is blocked via the characterization. -/
theorem C8_witness :
    2 ≤ initialScenarios.length ∧
    removeScenario ["", ""] 0 = ["", ""] ∧
    (addScenario ["", ""]).length = 2 + 1 ∧
    decisionHandleSubmit "ctx" ["a", "b"] = .callsNetwork :=
  ⟨C8_decision_helper_invariants.1 initialScenarios ReachableScenarios.initial,
   C8_decision_helper_invariants.2.1 ["", ""] 0 (by decide),
   C8_decision_helper_invariants.2.2.1 ["", ""],
   (C8_decision_helper_invariants.2.2.2 "ctx" ["a", "b"]).mpr (by decide)⟩

/-- C9: the pressure-gauge label is determined by the thresholds
`>25`, `>50`, `>75`, `>90`: at most 25 is "Chilled 😎", 26-50 "Balanced ⚖️",
51-75 "Busy 🏃", 76-90 "Pressure High! 🔥", above 90 "CRITICAL 🚨"; in
particular scores 10, 51, 76 and 91. -/
theorem C9_gauge_label_thresholds (score : Nat) :
    (score ≤ 25 → gaugeLabel score = "Chilled 😎") ∧
    (26 ≤ score → score ≤ 50 → gaugeLabel score = "Balanced ⚖️") ∧
    (51 ≤ score → score ≤ 75 → gaugeLabel score = "Busy 🏃") ∧
    (76 ≤ score → score ≤ 90 → gaugeLabel score = "Pressure High! 🔥") ∧
    (91 ≤ score → gaugeLabel score = "CRITICAL 🚨") := by
  unfold gaugeLabel
  refine ⟨?_, ?_, ?_, ?_, ?_⟩ <;> intros <;> split_ifs <;> first | rfl | omega

/-- Witness for C9: the labels at scores 10, 51, 76 and 91. -/
theorem C9_witness :
    gaugeLabel 10 = "Chilled 😎" ∧ gaugeLabel 51 = "Busy 🏃" ∧
    gaugeLabel 76 = "Pressure High! 🔥" ∧ gaugeLabel 91 = "CRITICAL 🚨" :=
  ⟨(C9_gauge_label_thresholds 10).1 (by decide),
   (C9_gauge_label_thresholds 51).2.2.1 (by decide) (by decide),
   (C9_gauge_label_thresholds 76).2.2.2.1 (by decide) (by decide),
   (C9_gauge_label_thresholds 91).2.2.2.2 (by decide)⟩

/-- C10: the Chat Component on a non-empty, non-loading submission fires the
supplied gamification action exactly once after the (resolving) submit
callback completes, for any callback; and instantiated with the Deadline
Pressure Meter chat-update handler — whose catch block absorbs the AI failure
so the callback always resolves — the PRESSURE_CALCULATED action fires even
when the AI call failed (the error is only stored in component state), and on
success as well. -/
theorem C10_chat_fires_action_after_resolve :
    (∀ (σ : Type) (input : String) (onSubmit : σ → σ × List ActionType) (st : σ)
        (a : ActionType), jsTrim input ≠ "" →
      (chatHandleSubmit input false true onSubmit st a).2.2 = [a]) ∧
    (∀ (α : Type) (summaryOf : α → String) (input : String) (m : String)
        (st : DpmState α), jsTrim input ≠ "" →
      (chatHandleSubmit input false true
        (dpmHandleChatCalculate summaryOf (.fail m)) st .PRESSURE_CALCULATED).2.2 =
          [.PRESSURE_CALCULATED] ∧
      (chatHandleSubmit input false true
        (dpmHandleChatCalculate summaryOf (.fail m)) st .PRESSURE_CALCULATED).1.error =
          some (if m = "" then "Failed to calculate pressure." else m)) ∧
    (∀ (α : Type) (summaryOf : α → String) (input : String) (v : α)
        (st : DpmState α), jsTrim input ≠ "" →
      (chatHandleSubmit input false true
        (dpmHandleChatCalculate summaryOf (.ok v)) st .PRESSURE_CALCULATED).2.2 =
          [.PRESSURE_CALCULATED]) ∧
    (∀ (today : Nat) (s : DailyAchievementState),
      (handleAction today .PRESSURE_CALCULATED none s).xpEarned = 10) := by
  refine ⟨?_, ?_, ?_, ?_⟩
  · intro σ input onSubmit st a h
    simp [chatHandleSubmit, h]
  · intro α summaryOf input m st h
    constructor <;> simp [chatHandleSubmit, dpmHandleChatCalculate, h]
  · intro α summaryOf input v st h
    simp [chatHandleSubmit, dpmHandleChatCalculate, h]
  · intro today s
    simp [handleAction, handleActionStep, XP_AWARDS]

/-- Witness for C10: with input "hi", a failing AI call still fires
PRESSURE_CALCULATED exactly once from the chat component, stores the error,
and the action awards 10 XP. -/
theorem C10_witness :
    (chatHandleSubmit "hi" false true
      (dpmHandleChatCalculate (fun _ : Nat => "s") (.fail "boom"))
      (DpmState.mk none none none) .PRESSURE_CALCULATED).2.2 =
        [.PRESSURE_CALCULATED] ∧
    (chatHandleSubmit "hi" false true
      (dpmHandleChatCalculate (fun _ : Nat => "s") (.fail "boom"))
      (DpmState.mk none none none) .PRESSURE_CALCULATED).1.error = some "boom" ∧
    (handleAction 0 .PRESSURE_CALCULATED none
      (DailyAchievementState.mk ⟨0, 0⟩ [] 0 none [])).xpEarned = 10 := by
  have h := C10_chat_fires_action_after_resolve.2.1 Nat (fun _ => "s") "hi" "boom"
    (DpmState.mk none none none) (by decide)
  exact ⟨h.1, by rw [h.2]; decide, C10_chat_fires_action_after_resolve.2.2.2 0
    (DailyAchievementState.mk ⟨0, 0⟩ [] 0 none [])⟩

end SLS
